import Mathlib

/-
Verification of the el-macro library: the IntoResult conversion capability,
the two revisions of the extract-or-exit operation (the bind macro in
src/source/bind/mod.rs, the newer revision, and in src/source/lib.rs, the
older revision), and the structural-match-to-optional mapper (the if_matches
macro in src/source/if_matches/mod.rs).

Embedding conventions.  The macros expand to Rust expressions whose
sub-expressions (the source expression composed with into_result, the
optional error handler, the escape action, the mapping closure) may carry
side effects and, for the escape action, may diverge (return / break /
continue).  We embed an effectful expression of value type A as a state
transformer `S -> S x A` over an abstract effect state S; evaluating the
expression exactly once corresponds to exactly one application of the
transformer, and its side effects are its action on the state.  An escape
action either diverges with a payload (Ctl.diverge) or is an ordinary block
evaluating to a value (Ctl.value); the whole bind expansion consequently
either diverges or produces the value bound to the new variable.
-/

namespace ElMacro

/-- Rust's `Result<V, E>`: the Outcome two-variant value of the spec. -/
inductive Result (V E : Type) : Type
| Ok : V → Result V E
| Err : E → Result V E
deriving DecidableEq, Repr

/-- Outcome of evaluating an escape action (or a whole bind expansion):
either a non-local exit carrying a payload of type R (modelling `return`,
`break`, `continue`), or an ordinary value of type V. -/
inductive Ctl (R V : Type) : Type
| diverge : R → Ctl R V
| value : V → Ctl R V
deriving DecidableEq, Repr

/-- Rust's `Option::ok_or`: `Some(v).ok_or(e) = Ok(v)`, `None.ok_or(e) = Err(e)`. -/
def ok_or {T E : Type} (o : Option T) (e : E) : Result T E :=
  match o with
  | some v => Result.Ok v
  | none => Result.Err e

/-- The IntoResult trait (src/source/bind/into_result.rs lines 11-22 and
src/source/lib.rs lines 244-255): associated Value and Error types and a
single conversion operation into_result. -/
class IntoResult (S : Type) where
  Value : Type
  Error : Type
  into_result : S → Result Value Error

export IntoResult (into_result)

/-- The impl of IntoResult for `Option<T>` (src/source/bind/into_result.rs
lines 25-34, src/source/lib.rs lines 258-267): `self.ok_or(())`. -/
instance instIntoResultOption {T : Type} : IntoResult (Option T) where
  Value := T
  Error := Unit
  into_result o := ok_or o ()

/-- The impl of IntoResult for `Result<T, E>` (src/source/bind/into_result.rs
lines 37-46, src/source/lib.rs lines 270-279): returns `self` unchanged. -/
instance instIntoResultResult {T E : Type} : IntoResult (Result T E) where
  Value := T
  Error := E
  into_result r := r

/-- Expansion of `bind!($n = $e, or $f)` in the newer revision
(src/source/bind/mod.rs lines 157-165):
`let $n = { match $e.into_result() { Ok(val) => val, Err(_) => $f } };`.
The argument e is the evaluation of `$e.into_result()`; f is the escape
action, which may diverge or evaluate to a replacement value for the
binding. -/
def bind_no_handler {σ V E R : Type}
    (e : σ → σ × Result V E) (f : σ → σ × Ctl R V) (s : σ) : σ × Ctl R V :=
  match e s with
  | (s1, Result.Ok v) => (s1, Ctl.value v)
  | (s1, Result.Err _) => f s1

/-- Expansion of `bind!($n = $e, or $h, $f)` in the newer revision
(src/source/bind/mod.rs lines 182-193):
on `Ok($n)` the value is bound; on `Err(err)` the handler `$h(err)` runs
(its return value is discarded) and then `$f` is evaluated. -/
def bind_with_handler {σ V E R H : Type}
    (e : σ → σ × Result V E) (h : E → σ → σ × H) (f : σ → σ × Ctl R V)
    (s : σ) : σ × Ctl R V :=
  match e s with
  | (s1, Result.Ok v) => (s1, Ctl.value v)
  | (s1, Result.Err err) => f (h err s1).1

/-- Expansion of `bind!(mut $n = $e, or $f)` (src/source/bind/mod.rs lines
167-172): `let mut $n = { bind!($n = $e, or $f); $n };` — the plain
expansion runs inside a block and its bound value (if it did not diverge)
is re-bound mutably. -/
def bind_mut_no_handler {σ V E R : Type}
    (e : σ → σ × Result V E) (f : σ → σ × Ctl R V) (s : σ) : σ × Ctl R V :=
  match bind_no_handler e f s with
  | (s2, Ctl.diverge r) => (s2, Ctl.diverge r)
  | (s2, Ctl.value v) => (s2, Ctl.value v)

/-- Expansion of `bind!(mut $n = $e, or $h, $f)` (src/source/bind/mod.rs
lines 195-200): the with-handler expansion runs inside a block and its
bound value is re-bound mutably. -/
def bind_mut_with_handler {σ V E R H : Type}
    (e : σ → σ × Result V E) (h : E → σ → σ × H) (f : σ → σ × Ctl R V)
    (s : σ) : σ × Ctl R V :=
  match bind_with_handler e h f s with
  | (s2, Ctl.diverge r) => (s2, Ctl.diverge r)
  | (s2, Ctl.value v) => (s2, Ctl.value v)

/-- Expansion of `bind!($n, or $f)` (src/source/bind/mod.rs lines 174-176),
which rewrites to `bind!($n = $n, or $f)` and then to the no-handler match
with the existing variable as the source expression.  x is the prior value
of the variable; ir is the into_result conversion of its type (evaluating
`x.into_result()` may itself carry effects, as for the Mutex impl). -/
def bind_omitted_no_handler {σ S V E R : Type}
    (x : S) (ir : S → σ → σ × Result V E) (f : σ → σ × Ctl R V)
    (s : σ) : σ × Ctl R V :=
  match ir x s with
  | (s1, Result.Ok v) => (s1, Ctl.value v)
  | (s1, Result.Err _) => f s1

/-- Expansion of `bind!($n, or $h, $f)` (src/source/bind/mod.rs lines
202-204), which rewrites to `bind!($n = $n, or $h, $f)` and then to the
with-handler match with the existing variable as the source expression. -/
def bind_omitted_with_handler {σ S V E R H : Type}
    (x : S) (ir : S → σ → σ × Result V E) (h : E → σ → σ × H)
    (f : σ → σ × Ctl R V) (s : σ) : σ × Ctl R V :=
  match ir x s with
  | (s1, Result.Ok v) => (s1, Ctl.value v)
  | (s1, Result.Err err) => f (h err s1).1

/-- Expansion of `bind!(mut $n, or $f)` (src/source/bind/mod.rs lines
178-180), which rewrites to `bind!(mut $n = $n, or $f)`. -/
def bind_mut_omitted_no_handler {σ S V E R : Type}
    (x : S) (ir : S → σ → σ × Result V E) (f : σ → σ × Ctl R V)
    (s : σ) : σ × Ctl R V :=
  match bind_omitted_no_handler x ir f s with
  | (s2, Ctl.diverge r) => (s2, Ctl.diverge r)
  | (s2, Ctl.value v) => (s2, Ctl.value v)

/-- Expansion of `bind!(mut $n, or $h, $f)` (src/source/bind/mod.rs lines
206-208), which rewrites to `bind!(mut $n = $n, or $h, $f)`. -/
def bind_mut_omitted_with_handler {σ S V E R H : Type}
    (x : S) (ir : S → σ → σ × Result V E) (h : E → σ → σ × H)
    (f : σ → σ × Ctl R V) (s : σ) : σ × Ctl R V :=
  match bind_omitted_with_handler x ir h f s with
  | (s2, Ctl.diverge r) => (s2, Ctl.diverge r)
  | (s2, Ctl.value v) => (s2, Ctl.value v)

/-- Expansion of `bind!($n = $e, or $f)` in the older revision
(src/source/lib.rs lines 140-142):
`let Ok($n) = into_result($e) else { $f };`.  In a let-else the else block
must diverge, so the escape action here only carries a divergence payload
of type R and can never evaluate to a replacement value. -/
def bind_no_handler_old {σ V E R : Type}
    (e : σ → σ × Result V E) (f : σ → σ × R) (s : σ) : σ × Ctl R V :=
  match e s with
  | (s1, Result.Ok v) => (s1, Ctl.value v)
  | (s1, Result.Err _) =>
      match f s1 with
      | (s2, r) => (s2, Ctl.diverge r)

/-- Expansion of `bind!($n = $e, or $h, $f)` in the older revision
(src/source/lib.rs lines 151-159): same match shape as the newer revision,
handler first with the error as its only argument, return value discarded,
then the escape action. -/
def bind_with_handler_old {σ V E R H : Type}
    (e : σ → σ × Result V E) (h : E → σ → σ × H) (f : σ → σ × Ctl R V)
    (s : σ) : σ × Ctl R V :=
  match e s with
  | (s1, Result.Ok v) => (s1, Ctl.value v)
  | (s1, Result.Err err) => f (h err s1).1

/-- Expansion of `bind!(mut $n = $e, or $f)` in the older revision
(src/source/lib.rs lines 144-149). -/
def bind_mut_no_handler_old {σ V E R : Type}
    (e : σ → σ × Result V E) (f : σ → σ × R) (s : σ) : σ × Ctl R V :=
  match bind_no_handler_old e f s with
  | (s2, Ctl.diverge r) => (s2, Ctl.diverge r)
  | (s2, Ctl.value v) => (s2, Ctl.value v)

/-- Expansion of `bind!(mut $n = $e, or $h, $f)` in the older revision
(src/source/lib.rs lines 161-166). -/
def bind_mut_with_handler_old {σ V E R H : Type}
    (e : σ → σ × Result V E) (h : E → σ → σ × H) (f : σ → σ × Ctl R V)
    (s : σ) : σ × Ctl R V :=
  match bind_with_handler_old e h f s with
  | (s2, Ctl.diverge r) => (s2, Ctl.diverge r)
  | (s2, Ctl.value v) => (s2, Ctl.value v)

/-- Expansion of `if_matches!($e, $p $(if $c)? => $m)`
(src/source/if_matches/mod.rs lines 52-61):
`match $e { $p if $c => Some((|| $m)()), _ => None }`.
The structural pattern `$p` is embedded as a destructuring function p
returning the bound sub-values on a shape match; the guard c is the boolean
guard over those bindings (the absent guard is the constantly-true guard,
since the arm `$p =>` without `if` is taken whenever the shape matches);
the mapping closure m is effectful and runs only when the arm is taken. -/
def if_matches {α β γ σ : Type}
    (e : α) (p : α → Option β) (c : β → Bool) (m : β → σ → σ × γ)
    (s : σ) : σ × Option γ :=
  match p e with
  | some b =>
      if c b then
        match m b s with
        | (s1, r) => (s1, some r)
      else (s, none)
  | none => (s, none)

/-- C6: for every optional source, the built-in conversion maps a present
value containing v to the success variant carrying exactly v, and an absent
value to the failure variant carrying the unit error. -/
theorem option_into_result_spec {T : Type} (v : T) :
    into_result (some v) = Result.Ok (E := Unit) v ∧
    into_result (none : Option T) = Result.Err (V := T) () :=
  ⟨rfl, rfl⟩

/-- C7: for every result-like source value, the built-in conversion
into_result is the identity, preserving both the success payload and the
failure payload. -/
theorem result_into_result_id {T E : Type} (r : Result T E) :
    into_result r = r :=
  rfl

/-- C1: whenever the conversion of the source yields the success variant
with payload v, both bind expansions (with and without a handler) bind
exactly v, and neither the handler nor the escape action is evaluated: the
result and final effect state are independent of h and f, and the effect
state is exactly the state s1 left by evaluating the source conversion
alone. -/
theorem bind_success_binds_exact {σ V E R H : Type}
    (e : σ → σ × Result V E) (h : E → σ → σ × H) (f : σ → σ × Ctl R V)
    (s s1 : σ) (v : V) (he : e s = (s1, Result.Ok v)) :
    bind_no_handler e f s = (s1, Ctl.value v) ∧
    bind_with_handler e h f s = (s1, Ctl.value v) := by
  constructor
  · unfold bind_no_handler
    rw [he]
  · unfold bind_with_handler
    rw [he]

/-- Witness for C1: for the concrete source `Some 42` converted via
into_result (yielding `Ok 42`), with a handler and an escape action each
bumping an effect counter, the bind expansions bind 42 and leave the
counter untouched by handler and escape. -/
theorem bind_success_binds_exact_witness :
    bind_no_handler (fun s : Nat => (s + 1, ok_or (some 42) 7))
      (fun s => (s + 1000, Ctl.value (R := Nat) 0)) 0 =
      (1, Ctl.value 42) ∧
    bind_with_handler (fun s : Nat => (s + 1, ok_or (some 42) 7))
      (fun _ s => (s + 100, ()))
      (fun s => (s + 1000, Ctl.value (R := Nat) 0)) 0 =
      (1, Ctl.value 42) :=
  bind_success_binds_exact _ _ _ 0 1 42 rfl

/-- C2: whenever the conversion of the source yields the failure variant
with payload err, the with-handler expansions (both revisions) invoke the
handler exactly once with exactly err on the state s1 left by the source,
then evaluate the escape action exactly once on the handler's output state:
the whole result is the escape action applied after the handler, so the
escape action never runs before the handler.  The handler's return value is
discarded: only its state effect (h err s1).1 reaches the escape action,
and replacing the handler by one with the same state effect but any other
return value leaves the result unchanged. -/
theorem bind_failure_handler_then_escape {σ V E R H : Type}
    (e : σ → σ × Result V E) (h h2 : E → σ → σ × H) (f : σ → σ × Ctl R V)
    (s s1 : σ) (err : E) (he : e s = (s1, Result.Err err))
    (hsame : (h2 err s1).1 = (h err s1).1) :
    bind_with_handler e h f s = f ((h err s1).1) ∧
    bind_with_handler_old e h f s = f ((h err s1).1) ∧
    bind_with_handler e h2 f s = bind_with_handler e h f s := by
  refine ⟨?_, ?_, ?_⟩
  · unfold bind_with_handler
    rw [he]
  · unfold bind_with_handler_old
    rw [he]
  · unfold bind_with_handler
    rw [he]
    show f (h2 err s1).1 = f (h err s1).1
    rw [hsame]

/-- Witness for C2: trace state, source failing with error 7 after logging
1; the handler logs its argument (returning 0, or 99 for the variant
handler), the escape logs 2 and yields 5.  The trace comes out 1, 7, 2 in
order and the variant handler changes nothing. -/
theorem bind_failure_handler_then_escape_witness :
    bind_with_handler (fun s : List Nat => (s ++ [1], Result.Err (V := Nat) 7))
      (fun err s => (s ++ [err], 0))
      (fun s => (s ++ [2], Ctl.value (R := Nat) 5)) [] =
      ([1, 7, 2], Ctl.value 5) ∧
    bind_with_handler_old (fun s : List Nat => (s ++ [1], Result.Err (V := Nat) 7))
      (fun err s => (s ++ [err], 0))
      (fun s => (s ++ [2], Ctl.value (R := Nat) 5)) [] =
      ([1, 7, 2], Ctl.value 5) ∧
    bind_with_handler (fun s : List Nat => (s ++ [1], Result.Err (V := Nat) 7))
      (fun err s => (s ++ [err], 99))
      (fun s => (s ++ [2], Ctl.value (R := Nat) 5)) [] =
      bind_with_handler (fun s : List Nat => (s ++ [1], Result.Err (V := Nat) 7))
        (fun err s => (s ++ [err], 0))
        (fun s => (s ++ [2], Ctl.value (R := Nat) 5)) [] :=
  bind_failure_handler_then_escape _ _ _ _ [] [1] 7 rfl rfl

/-- C3: in both macro revisions, a failing source always leads to the escape
action being evaluated, whatever the handler is: with a handler (either
revision) the result is exactly the escape action applied to the
post-handler state, for every handler h; without a handler the result is
the escape action applied to the post-source state (newer revision), or the
divergence produced by the escape action (older revision, let-else form).
No handler behaviour can suppress the escape path and evaluation never
continues past a failure without executing the escape action. -/
theorem bind_failure_escape_always {σ V E R H : Type}
    (e : σ → σ × Result V E) (h : E → σ → σ × H)
    (f : σ → σ × Ctl R V) (g : σ → σ × R)
    (s s1 : σ) (err : E) (he : e s = (s1, Result.Err err)) :
    bind_with_handler e h f s = f ((h err s1).1) ∧
    bind_with_handler_old e h f s = f ((h err s1).1) ∧
    bind_no_handler e f s = f s1 ∧
    bind_no_handler_old e g s = ((g s1).1, Ctl.diverge (g s1).2) := by
  refine ⟨?_, ?_, ?_, ?_⟩
  · unfold bind_with_handler
    rw [he]
  · unfold bind_with_handler_old
    rw [he]
  · unfold bind_no_handler
    rw [he]
  · unfold bind_no_handler_old
    rw [he]

/-- Witness for C3: counter state, source failing with error 3 after one
tick; the handler adds the error, the escape multiplies by ten and yields
9 (or, in the let-else form, adds five and diverges with 77).  In every
form the escape action's effect shows up in the final state. -/
theorem bind_failure_escape_always_witness :
    bind_with_handler (fun s : Nat => (s + 1, Result.Err (V := Nat) 3))
      (fun err s => (s + err, ()))
      (fun s => (s * 10, Ctl.value (R := Nat) 9)) 0 = (40, Ctl.value 9) ∧
    bind_with_handler_old (fun s : Nat => (s + 1, Result.Err (V := Nat) 3))
      (fun err s => (s + err, ()))
      (fun s => (s * 10, Ctl.value (R := Nat) 9)) 0 = (40, Ctl.value 9) ∧
    bind_no_handler (fun s : Nat => (s + 1, Result.Err (V := Nat) 3))
      (fun s => (s * 10, Ctl.value (R := Nat) 9)) 0 = (10, Ctl.value 9) ∧
    bind_no_handler_old (fun s : Nat => (s + 1, Result.Err (V := Nat) 3))
      (fun s => (s + 5, 77)) 0 = ((6 : Nat), Ctl.diverge (V := Nat) 77) :=
  bind_failure_escape_always _ _ _ _ 0 1 3 rfl

/-- C4: on a failing source, when the escape action evaluates to a value
instead of diverging, that value becomes the value of the new binding:
the expansion's result is `Ctl.value` of the escape action's value, both
without a handler (newer revision) and with a handler (both revisions). -/
theorem bind_escape_value_becomes_binding {σ V E R H : Type}
    (e : σ → σ × Result V E) (h : E → σ → σ × H) (f : σ → σ × Ctl R V)
    (s s1 s2 s3 : σ) (err : E) (w w2 : V)
    (he : e s = (s1, Result.Err err))
    (hf1 : f s1 = (s2, Ctl.value w))
    (hf2 : f ((h err s1).1) = (s3, Ctl.value w2)) :
    bind_no_handler e f s = (s2, Ctl.value w) ∧
    bind_with_handler e h f s = (s3, Ctl.value w2) ∧
    bind_with_handler_old e h f s = (s3, Ctl.value w2) := by
  refine ⟨?_, ?_, ?_⟩
  · unfold bind_no_handler
    rw [he]
    exact hf1
  · unfold bind_with_handler
    rw [he]
    exact hf2
  · unfold bind_with_handler_old
    rw [he]
    exact hf2

/-- Witness for C4: counter state, failing source, escape action an
ordinary block yielding the current counter; without a handler the binding
receives 1, with the handler (which adds two) it receives 3. -/
theorem bind_escape_value_becomes_binding_witness :
    bind_no_handler (fun s : Nat => (s + 1, Result.Err (V := Nat) 0))
      (fun s => (s, Ctl.value (R := Nat) s)) 0 = (1, Ctl.value 1) ∧
    bind_with_handler (fun s : Nat => (s + 1, Result.Err (V := Nat) 0))
      (fun _ s => (s + 2, ()))
      (fun s => (s, Ctl.value (R := Nat) s)) 0 = (3, Ctl.value 3) ∧
    bind_with_handler_old (fun s : Nat => (s + 1, Result.Err (V := Nat) 0))
      (fun _ s => (s + 2, ()))
      (fun s => (s, Ctl.value (R := Nat) s)) 0 = (3, Ctl.value 3) :=
  bind_escape_value_becomes_binding _ _ _ 0 1 1 3 0 1 3 rfl rfl rfl

/-- C10: the no-handler expansions match the error with a wildcard and
discard it: on failure the result is the escape action applied to the
post-source state alone, so the error payload reaches neither the escape
action nor any later code, and two sources failing with different payloads
but the same effects yield identical results (both revisions). -/
theorem bind_no_handler_ignores_error {σ V E R : Type}
    (e e2 : σ → σ × Result V E) (f : σ → σ × Ctl R V) (g : σ → σ × R)
    (s s1 : σ) (err err2 : E)
    (he : e s = (s1, Result.Err err)) (he2 : e2 s = (s1, Result.Err err2)) :
    bind_no_handler e f s = f s1 ∧
    bind_no_handler e2 f s = bind_no_handler e f s ∧
    bind_no_handler_old e g s = ((g s1).1, Ctl.diverge (g s1).2) ∧
    bind_no_handler_old e2 g s = bind_no_handler_old e g s := by
  refine ⟨?_, ?_, ?_, ?_⟩
  · unfold bind_no_handler
    rw [he]
  · unfold bind_no_handler
    rw [he, he2]
  · unfold bind_no_handler_old
    rw [he]
  · unfold bind_no_handler_old
    rw [he, he2]

/-- Witness for C10: two sources failing with payloads 7 and 8 after one
tick; with the same escape actions the no-handler expansions of both
revisions agree exactly. -/
theorem bind_no_handler_ignores_error_witness :
    bind_no_handler (fun s : Nat => (s + 1, Result.Err (V := Nat) 7))
      (fun s => (s * 2, Ctl.value (R := Nat) 3)) 0 = (2, Ctl.value 3) ∧
    bind_no_handler (fun s : Nat => (s + 1, Result.Err (V := Nat) 8))
      (fun s => (s * 2, Ctl.value (R := Nat) 3)) 0 =
      bind_no_handler (fun s : Nat => (s + 1, Result.Err (V := Nat) 7))
        (fun s => (s * 2, Ctl.value (R := Nat) 3)) 0 ∧
    bind_no_handler_old (fun s : Nat => (s + 1, Result.Err (V := Nat) 7))
      (fun s => (s, 9)) 0 = ((1 : Nat), Ctl.diverge (V := Nat) 9) ∧
    bind_no_handler_old (fun s : Nat => (s + 1, Result.Err (V := Nat) 8))
      (fun s => (s, 9)) 0 =
      bind_no_handler_old (fun s : Nat => (s + 1, Result.Err (V := Nat) 7))
        (fun s => (s, 9)) 0 :=
  bind_no_handler_ignores_error _ _ _ _ 0 1 7 8 rfl rfl

/-- C5: the structural-match-to-optional mapper yields the absent optional
when the shape does not match, and when the shape matches but the guard is
false, leaving the state untouched (so the mapping expression, universally
quantified here, is evaluated zero times on those paths); when the shape
matches and the guard is true (which includes the absent guard, embedded as
the constantly-true guard), the result is the present optional wrapping the
mapping expression's value, with the mapping expression applied exactly
once. -/
theorem if_matches_spec {α β γ σ : Type}
    (e : α) (p : α → Option β) (c : β → Bool) (m : β → σ → σ × γ)
    (s : σ) :
    (p e = none → if_matches e p c m s = (s, none)) ∧
    (∀ b, p e = some b → c b = false → if_matches e p c m s = (s, none)) ∧
    (∀ b, p e = some b → c b = true →
      if_matches e p c m s = ((m b s).1, some (m b s).2)) := by
  refine ⟨?_, ?_, ?_⟩
  · intro hp
    unfold if_matches
    rw [hp]
  · intro b hp hc
    unfold if_matches
    rw [hp]
    show (if c b then _ else (s, none)) = (s, none)
    rw [hc]
    simp
  · intro b hp hc
    unfold if_matches
    rw [hp]
    show (if c b then _ else (s, none)) = ((m b s).1, some (m b s).2)
    rw [hc]
    simp

/-- Witness for C5: with a counter state and the mapping doubling its
binding while bumping the counter, a non-matching shape and a matching
shape with guard false both yield the empty optional with the counter at
zero, while a matching shape with guard true yields `some 10` with the
counter at one. -/
theorem if_matches_spec_witness :
    if_matches (none : Option Nat) (fun x => x) (fun b => decide (3 < b))
      (fun b (s : Nat) => (s + 1, b * 2)) 0 = (0, none) ∧
    if_matches (some 0) (fun x => x) (fun b => decide (3 < b))
      (fun b (s : Nat) => (s + 1, b * 2)) 0 = (0, none) ∧
    if_matches (some 5) (fun x => x) (fun b => decide (3 < b))
      (fun b (s : Nat) => (s + 1, b * 2)) 0 = (1, some 10) :=
  ⟨(if_matches_spec (none : Option Nat) (fun x => x) (fun b => decide (3 < b))
      (fun b (s : Nat) => (s + 1, b * 2)) 0).1 rfl,
   (if_matches_spec (some 0) (fun x => x) (fun b => decide (3 < b))
      (fun b (s : Nat) => (s + 1, b * 2)) 0).2.1 0 rfl rfl,
   (if_matches_spec (some 5) (fun x => x) (fun b => decide (3 < b))
      (fun b (s : Nat) => (s + 1, b * 2)) 0).2.2 5 rfl rfl⟩

/-- C8: the mutable expansions of the extract-or-exit operation take the
same branch and produce the same bound value (and the same effects) as the
immutable ones, in both revisions, for every source, handler and escape
action: mutability only marks the resulting binding as reassignable. -/
theorem bind_mut_eq_immut {σ V E R H : Type}
    (e : σ → σ × Result V E) (h : E → σ → σ × H)
    (f : σ → σ × Ctl R V) (g : σ → σ × R) (s : σ) :
    bind_mut_no_handler e f s = bind_no_handler e f s ∧
    bind_mut_with_handler e h f s = bind_with_handler e h f s ∧
    bind_mut_no_handler_old e g s = bind_no_handler_old e g s ∧
    bind_mut_with_handler_old e h f s = bind_with_handler_old e h f s := by
  refine ⟨?_, ?_, ?_, ?_⟩
  · unfold bind_mut_no_handler
    rcases hb : bind_no_handler e f s with ⟨s2, r⟩
    cases r <;> rfl
  · unfold bind_mut_with_handler
    rcases hb : bind_with_handler e h f s with ⟨s2, r⟩
    cases r <;> rfl
  · unfold bind_mut_no_handler_old
    rcases hb : bind_no_handler_old e g s with ⟨s2, r⟩
    cases r <;> rfl
  · unfold bind_mut_with_handler_old
    rcases hb : bind_with_handler_old e h f s with ⟨s2, r⟩
    cases r <;> rfl

/-- C9: the omitted-source expansions, which rewrite `bind!(n, ...)` to
`bind!(n = n, ...)`, behave identically to the explicit expansions applied
to the prior value x of the same-named variable as the source, in all four
forms (plain, with handler, and their mutable variants). -/
theorem bind_omitted_eq_explicit {σ S V E R H : Type}
    (x : S) (ir : S → σ → σ × Result V E) (h : E → σ → σ × H)
    (f : σ → σ × Ctl R V) (s : σ) :
    bind_omitted_no_handler x ir f s = bind_no_handler (ir x) f s ∧
    bind_omitted_with_handler x ir h f s = bind_with_handler (ir x) h f s ∧
    bind_mut_omitted_no_handler x ir f s =
      bind_mut_no_handler (ir x) f s ∧
    bind_mut_omitted_with_handler x ir h f s =
      bind_mut_with_handler (ir x) h f s :=
  ⟨rfl, rfl, rfl, rfl⟩

end ElMacro
